import Mathlib

set_option maxRecDepth 8000

/-!
Verification of the MNM swimming-club chatbot (`src/chatboot.py`).

The development shallowly embeds the pure core of the program:

* Python string primitives used by the bot (`str.lower`, `str.strip`,
  the `in` substring test) are modelled on `List Char`;
* the keyword tables, canned templates, `identify_doc_type`,
  `get_enrollment_flow` and `get_fallback_response` are transcribed
  verbatim from the source;
* the `RedisCache` wrapper, `search_documents`, `generate_response`
  and `setup_rag_system` are modelled with their fallible external
  collaborators (the redis client, the vector store, the filesystem)
  as explicit parameters returning `Except` / `Option` values, so
  that a raised exception in the Python code corresponds to an
  `Except.error` value which the embedded definitions handle exactly
  where the Python `try/except` blocks do.
-/

/-! ### Python string primitives -/

/-- The whitespace characters recognised by Python `str.strip()`
(ASCII part; the exotic Unicode spaces do not occur in this program). -/
def py_ws (c : Char) : Bool :=
  c = ' ' || c = '\t' || c = '\n' || c = '\r' || c = '\x0b' || c = '\x0c'

/-- One character of Python `str.lower()`: ASCII `A`-`Z` and the
Latin-1 uppercase letters (`À`-`Þ` except `×`, which covers the accented
Spanish capitals `Á É Í Ó Ú Ñ Ü` used by this program) map to their
lowercase forms 32 code points higher; every other character is
returned unchanged. -/
def py_lower_char (c : Char) : Char :=
  if 'A' ≤ c ∧ c ≤ 'Z' then Char.ofNat (c.toNat + 32)
  else if 0xC0 ≤ c.toNat ∧ c.toNat ≤ 0xDE ∧ c.toNat ≠ 0xD7 then Char.ofNat (c.toNat + 32)
  else c

/-- Python `str.lower()`, character by character. -/
def py_lower (l : List Char) : List Char := l.map py_lower_char

/-- Python `str.strip()`: drop whitespace from both ends. -/
def py_strip (l : List Char) : List Char :=
  ((l.dropWhile py_ws).reverse.dropWhile py_ws).reverse

/-- The Python substring test `w in l` on strings. -/
def py_in (w : List Char) : List Char → Bool
  | [] => w.isEmpty
  | c :: rest => (w.isPrefixOf (c :: rest)) || py_in w rest

/-- `any(word in text for word in words)`, the keyword-group test used
throughout `get_fallback_response` (src/chatboot.py lines 298-500). -/
def any_keyword (words : List (List Char)) (text : List Char) : Bool :=
  words.any (fun w => py_in w text)

/-! ### Keyword tables, transcribed from `get_fallback_response`
(src/chatboot.py lines 298-500, in source order). -/

/-- Keywords of the first (enrollment) branch, line 298. -/
def enrollment_keywords : List (List Char) :=
  ["inscripcion".data, "inscripción".data, "inscribirme".data, "matricula".data,
   "matrícula".data, "registro".data, "pasos".data, "como me inscribo".data,
   "cómo me inscribo".data]

/-- Keywords of the schedule branch, line 301. -/
def schedule_keywords : List (List Char) :=
  ["horario".data, "hora".data, "cuando".data, "tiempo".data]

/-- Keywords of the child sub-branch of the schedule branch, line 302. -/
def child_keywords : List (List Char) :=
  ["niño".data, "niña".data, "menor".data, "infantil".data]

/-- Keywords of the adult sub-branch of the schedule branch, line 325. -/
def adult_keywords : List (List Char) :=
  ["adulto".data, "mayor".data]

/-- Keywords of the price branch, line 372. -/
def price_keywords : List (List Char) :=
  ["precio".data, "costo".data, "valor".data, "cuanto".data, "pago".data]

/-- Keywords of the what-to-bring branch, line 391. -/
def bring_keywords : List (List Char) :=
  ["traer".data, "necesito".data, "llevar".data, "primera clase".data,
   "equipamiento".data]

/-- Keywords of the teaching-approach branch, line 412. -/
def teaching_keywords : List (List Char) :=
  ["enfasis".data, "énfasis".data, "enfoque".data, "que enseñan".data,
   "metodologia".data, "metodología".data, "escuela".data, "enseñanza".data,
   "sistema".data, "niveles".data, "como enseñan".data, "que aprendo".data,
   "qué aprendo".data]

/-- Keywords of the age branch, line 433. -/
def age_keywords : List (List Char) :=
  ["edad".data, "años".data, "niño".data, "menor".data]

/-- Keywords of the contact branch, line 451. -/
def contact_keywords : List (List Char) :=
  ["contacto".data, "teléfono".data, "telefono".data, "whatsapp".data,
   "direccion".data, "dirección".data, "ubicacion".data, "ubicación".data,
   "donde".data]

/-- Keywords of the reposition-policy branch, line 462. -/
def reposition_keywords : List (List Char) :=
  ["reposicion".data, "reposición".data, "reponer".data, "recuperar clase".data,
   "faltar".data]

/-- Keywords of the general-policy branch, line 486. -/
def policy_keywords : List (List Char) :=
  ["reglamento".data, "reglas".data, "normas".data, "politicas".data,
   "políticas".data, "terminos".data, "términos".data, "condiciones".data]

/-- Keywords of the last (generic-enrollment) branch, line 500. -/
def generic_enrollment_keywords : List (List Char) :=
  ["inscripcion".data, "inscripción".data, "matricula".data, "matrícula".data,
   "registro".data]
/-- Template transcribed verbatim from src/chatboot.py: enrollment-flow step 1 template, `get_enrollment_flow` lines 239-288. -/
def tpl_pasos_inscripcion : String :=
  "✅ **PERFECTO, ESTOS SON LOS PASOS PARA INSCRIBIRTE:**\n\n1️⃣ **Actividad:** Ofrecemos clases de natación en la piscina olímpica de la Villa Olímpica de Montería.\nEs un deporte de bajo impacto, ideal para la salud.\n\n2️⃣ **Requisitos:**\n• Aceptar términos y condiciones\n• Firmar consentimiento informado\n• Presentar certificado médico, si es necesario\n\n3️⃣ **Matrícula:**\n• Tiene vigencia de 1 año\n• Solo se paga una vez al año\n• Importante: No se devuelve el valor pagado\n\n4️⃣ **Mensualidad:**\n• Se paga por adelantado cada mes\n• Solo puedes asistir si estás al día en el pago\n• Tarifa pronto pago los primeros 5 dias del ciclo\n\n\n📆 **¿Cómo es la política de devoluciones?**\n🟡 Antes de la primera clase: 100%\n🟠 Después de la segunda clase: 50%\n🔴 Después de la tercera clase: No hay devolución\n\n5️⃣ **Importante sobre el uso de la piscina**\nLa piscina es pública. El aporte mensual garantiza instructores calificados, no es el alquiler del espacio.\n\n6️⃣ **¿Qué riesgos debo tener en cuenta?**\n• Lesiones menores, ahogamiento, contacto con otros usuarios, clima\n• Declaras estar en condiciones óptimas de salud\n• Si representas a un menor, también asumes responsabilidad por él/ella\n\n7️⃣ **¿Se toman fotos o videos?**\nSí. Autorizas su uso con fines deportivos y promocionales del club al aceptar los términos.\n\n8️⃣ **¿Deseas continuar con tu inscripción?**\n\n✅ **Sí, quiero inscribirme**\n❌ **No, volver al inicio**\n📩 **Contactar asesor humano para solicitar la documentación**\n\n9️⃣ **¿Tienes dudas sobre nuestra política de reposición de clases?**\n📋 Pregúntame específicamente sobre \"política de reposición\" o \"reponer clases\" para obtener información detallada.\n\n📞 **WhatsApp:** +57 3144809367\n📧 **Email:** monteriamaster@gmail.com\n👆 [Haz clic aquí para inscribirte por WhatsApp](https://wa.me/573144809367?text=Hola,%20quiero%20inscribirme%20en%20el%20Club%20de%20Natación%20MNM)\n💌 [Enviar correo electrónico](mailto:monteriamaster@gmail.com?subject=Inscripción%20Club%20de%20Natación%20MNM)"

/-- Template transcribed verbatim from src/chatboot.py: child-schedule template, lines 303-323. -/
def tpl_horarios_ninos : String :=
  "🏊‍♀️ **HORARIOS PARA NIÑOS:**\n\n**Martes y Jueves:**\n• 4:00 PM a 5:00 PM\n• 5:00 PM a 6:00 PM\n\n**Sábados:**\n• 8:00 AM a 9:00 AM\n• 4:00 PM a 5:00 PM\n• 5:00 PM a 6:00 PM\n\n**Miércoles y Viernes:**\n• 4:00 PM a 5:00 PM\n• 5:00 PM a 6:00 PM\n\n📞 **WhatsApp:** +57 3144809367\n📧 **Email:** monteriamaster@gmail.com\n\n🔥 **¡REALIZA TU INSCRIPCIÓN YA!**\n👆 [Haz clic aquí para inscribirte por WhatsApp](https://wa.me/573144809367?text=Hola,%20quiero%20inscribirme%20en%20el%20Club%20de%20Natación%20MNM)\n💌 [Enviar correo electrónico](mailto:monteriamaster@gmail.com?subject=Inscripción%20Club%20de%20Natación%20MNM)"

/-- Template transcribed verbatim from src/chatboot.py: adult-schedule template, lines 326-348. -/
def tpl_horarios_adultos : String :=
  "🏊‍♂️ **HORARIOS PARA ADULTOS:**\n\n**Martes y Jueves:**\n• 5:00 AM a 6:00 AM\n• 6:00 AM a 7:00 AM\n• 7:00 AM a 8:00 AM\n• 6:00 PM a 7:00 PM\n• 7:00 PM a 8:00 PM\n\n**Sábados:**\n• 5:00 AM a 6:00 AM\n• 6:00 AM a 7:00 AM\n• 7:00 AM a 8:00 AM\n\n**Miércoles y Viernes:**\n• 6:00 PM a 7:00 PM\n\n📞 **WhatsApp:** +57 3144809367\n📧 **Email:** monteriamaster@gmail.com\n\n🔥 **¡REALIZA TU INSCRIPCIÓN YA!**\n👆 [Haz clic aquí para inscribirte por WhatsApp](https://wa.me/573144809367?text=Hola,%20quiero%20inscribirme%20en%20el%20Club%20de%20Natación%20MNM)\n💌 [Enviar correo electrónico](mailto:monteriamaster@gmail.com?subject=Inscripción%20Club%20de%20Natación%20MNM)"

/-- Template transcribed verbatim from src/chatboot.py: combined-schedule template, lines 351-370. -/
def tpl_horarios_completos : String :=
  "📅 **HORARIOS COMPLETOS - CLUB DE NATACIÓN MNM:**\n\n**MARTES Y JUEVES:**\n• 5:00-8:00 AM (adultos)\n• 4:00-6:00 PM (niños)\n• 6:00-8:00 PM (adultos)\n\n**SÁBADOS:**\n• 5:00-8:00 AM (adultos)\n• 8:00 AM-6:00 PM (niños y adultos)\n\n**MIÉRCOLES Y VIERNES:**\n• 4:00-6:00 PM (niños)\n• 6:00-7:00 PM (adultos)\n\n📍 Ubicación: Piscina de la Villaolímpica, Montería\n📞 WhatsApp: +57 3144809367\n\n🔥 **¡REALIZA TU INSCRIPCIÓN YA!**\n👆 [Haz clic aquí para inscribirte por WhatsApp](https://wa.me/573144809367?text=Hola,%20quiero%20inscribirme%20en%20el%20Club%20de%20Natación%20MNM)"

/-- Template transcribed verbatim from src/chatboot.py: price template, lines 373-389. -/
def tpl_precios : String :=
  "💰 **PRECIOS CLUB DE NATACIÓN MNM:**\n\n🏊‍♀️ **MENSUALIDADES:**\n1. 1️⃣  vez por semana: $120,000\n2. 2️⃣  veces por semana: $160,000\n3. 3️⃣  veces por semana: $180,000\n\n💡 **Tarifa con descuento pronto pago:** Los primeros 5 días del ciclo\n\n📝 **Inscripción:** $40,000 (pago único)\n\n📞 **WhatsApp:** +57 3144809367\n📧 **Email:** monteriamaster@gmail.com\n\n🔥 **¡REALIZA TU INSCRIPCIÓN YA!**\n👆 [Haz clic aquí para inscribirte por WhatsApp](https://wa.me/573144809367?text=Hola,%20quiero%20inscribirme%20en%20el%20Club%20de%20Natación%20MNM)\n💌 [Enviar correo electrónico](mailto:monteriamaster@gmail.com?subject=Inscripción%20Club%20de%20Natación%20MNM)"

/-- Template transcribed verbatim from src/chatboot.py: what-to-bring template, lines 392-410. -/
def tpl_que_traer : String :=
  "🎒 **QUÉ TRAER A TU PRIMERA CLASE:**\n\n✅ **Obligatorio:**\n• Traje de baño deportivo\n• Gorro de natación\n• Gafas de natación\n• Toalla\n\n✅ **Opcional:**\n• Chanclas antideslizantes\n\n👶 **Edades:** Desde 5 años sin límite superior\n\n📞 **WhatsApp:** +57 3144809367\n📧 **Email:** monteriamaster@gmail.com\n\n🔥 **¡REALIZA TU INSCRIPCIÓN YA!**\n👆 [Haz clic aquí para inscribirte por WhatsApp](https://wa.me/573144809367?text=Hola,%20quiero%20inscribirme%20en%20el%20Club%20de%20Natación%20MNM)\n💌 [Enviar correo electrónico](mailto:monteriamaster@gmail.com?subject=Inscripción%20Club%20de%20Natación%20MNM)"

/-- Template transcribed verbatim from src/chatboot.py: teaching-approach template, lines 413-431. -/
def tpl_enfasis : String :=
  "🎯 **ÉNFASIS DE NUESTRA ESCUELA:**\n\n1. 🏊‍♀️ Desarrollo de habilidades acuáticas\n2. 🏊‍♂️ Enseñanza de técnicas en los 4 estilos de natación\n3. 📊 Sistema de evaluación progresivo por niveles (nivel basico, intermedio, avanzado y equipo)\n4. 🏆 Programa de reconocimiento del Nadador del trimestre\n5. 📈 Evaluación mensual del avance del nivel con puntaje que es enviado al grupo de Practicantes del Club\n6. 💪 Entrenamiento para resistencia y velocidad\n7. 👥 Natación para todas las edades\n8. 🥇 Preparación para competencias\n9. ⚡ Fomento de disciplina y trabajo en equipo\n10. 🌱 Promoción de estilo de vida saludable\n\n📞 **WhatsApp:** +57 3144809367\n📧 **Email:** monteriamaster@gmail.com\n\n🔥 **¡REALIZA TU INSCRIPCIÓN YA!**\n👆 [Haz clic aquí para inscribirte por WhatsApp](https://wa.me/573144809367?text=Hola,%20quiero%20inscribirme%20en%20el%20Club%20de%20Natación%20MNM)\n💌 [Enviar correo electrónico](mailto:monteriamaster@gmail.com?subject=Inscripción%20Club%20de%20Natación%20MNM)"

/-- Template transcribed verbatim from src/chatboot.py: age template, lines 434-449. -/
def tpl_edades : String :=
  "<div style=\"text-align: center;\">\n\n👶 **EDADES ACEPTADAS:**\n\n✅ Desde 5 años sin límite superior\n\n🏊‍♀️ Tenemos horarios especializados para niños y adultos, en grupos segmentados para facilitar y promover el aprendizaje\n\n</div>\n\n📞 **WhatsApp:** +57 3144809367\n📧 **Email:** monteriamaster@gmail.com\n\n🔥 **¡REALIZA TU INSCRIPCIÓN YA!**\n👆 [Haz clic aquí para inscribirte por WhatsApp](https://wa.me/573144809367?text=Hola,%20quiero%20inscribirme%20en%20el%20Club%20de%20Natación%20MNM)\n💌 [Enviar correo electrónico](mailto:monteriamaster@gmail.com?subject=Inscripción%20Club%20de%20Natación%20MNM)"

/-- Template transcribed verbatim from src/chatboot.py: contact template, lines 452-460. -/
def tpl_contacto : String :=
  "📍 **INFORMACIÓN DE CONTACTO:**\n\n🏊‍♀️ **Club de Natación Montería Natación Master**\n📍 Dirección: Piscina de la Villaolímpica, Montería\n📞 Teléfono: +57 3144809367\n💬 WhatsApp: +57 3144809367\n📧 Email: monteriamaster@gmail.com\n\n¡Te esperamos! 🌊"

/-- Template transcribed verbatim from src/chatboot.py: reposition-policy template, lines 463-484. -/
def tpl_reposicion : String :=
  "📋 **POLÍTICA DE REPOSICIÓN - MONTERÍA NATACIÓN MASTER**\n\n✅ Entendemos que a veces surgen imprevistos. Por eso, puedes reponer una (1) clase por mes, y evaluamos cada caso según la justificación que nos compartas.\n\n📅 Puedes tomar tu reposición en otro horario dentro del mismo mes, en grupos del mismo nivel y calendario, según disponibilidad de cupo. Si faltaste en la última semana del ciclo, ¡tranqui! tienes hasta 8 días del mes siguiente para recuperarla.\n\n🔁 Ten en cuenta que las reposiciones no se acumulan ni se trasladan a otros meses.\n\n🌧 Si la piscina se cierra por motivos externos, garantizamos las reposiciones que correspondan.\n\n❌ Para cuidar la organización de nuestros grupos y ofrecerte una buena experiencia, no reponemos clases sin aviso previo.\n\n📲 Escríbenos por WhatsApp oficial del club para gestionar tu reposición. ¡Estamos para ayudarte! 🏊‍♀️✨\n\n📎 **Documento completo:** https://bit.ly/32J20r0\n\n📞 **WhatsApp:** +57 3144809367\n📧 **Email:** monteriamaster@gmail.com\n\n🔥 **¡REALIZA TU INSCRIPCIÓN YA!**\n👆 [Haz clic aquí para inscribirte por WhatsApp](https://wa.me/573144809367?text=Hola,%20quiero%20inscribirme%20en%20el%20Club%20de%20Natación%20MNM)\n💌 [Enviar correo electrónico](mailto:monteriamaster@gmail.com?subject=Inscripción%20Club%20de%20Natación%20MNM)"

/-- Template transcribed verbatim from src/chatboot.py: general-policy template, lines 487-498. -/
def tpl_reglamentos : String :=
  "📋 **INFORMACIÓN SOBRE REGLAMENTOS:**\n\nPara información detallada sobre:\n• Reglamentos del club\n• Políticas de reposición\n• Términos y condiciones\n• Normas de convivencia\n\n📞 Por favor contacta directamente al club:\nWhatsApp: +57 3144809367\n\nTenemos documentación completa disponible."

/-- Template transcribed verbatim from src/chatboot.py: generic-enrollment template of the last branch, lines 501-513. -/
def tpl_proceso_inscripcion : String :=
  "📝 **PROCESO DE INSCRIPCIÓN:**\n\n💰 **Costo de inscripción:** $40,000 (pago único)\n\n📋 Para completar tu inscripción necesitas:\n• Documentación personal\n• Información médica básica\n• Selección de horarios\n\n📞 Para iniciar el proceso contactanos:\nWhatsApp: +57 3144809367\n\n¡Te ayudaremos con todo el proceso, Bienvenido! 🏊‍♀️"

/-- Template transcribed verbatim from src/chatboot.py: generic fallback response, `generate_response` lines 559-572. -/
def generic_response_text : String :=
  "🏊‍♀️ **Club de Natación Montería Natación Master**\n\nLo siento, no tengo información específica sobre tu consulta en este momento.\n\n📞 Para información detallada contacta directamente:\n💬 WhatsApp: +57 3144809367\n📧 Email: monteriamaster@gmail.com\n📍 Piscina de la Villaolímpica, Montería\n\n🔥 **¡REALIZA TU INSCRIPCIÓN YA!**\n👆 [Haz clic aquí para inscribirte por WhatsApp](https://wa.me/573144809367?text=Hola,%20quiero%20inscribirme%20en%20el%20Club%20de%20Natación%20MNM)\n💌 [Enviar correo electrónico](mailto:monteriamaster@gmail.com?subject=Consulta%20Club%20de%20Natación%20MNM)\n\n¡Estaremos felices de ayudarte! 🌊"

/-- Template transcribed verbatim from src/chatboot.py: text before `document_context` in the pdf response f-string, lines 543-545. -/
def pdf_response_pre : String :=
  "📋 **Información encontrada en documentos del club:**\n\n"

/-- Template transcribed verbatim from src/chatboot.py: text after `document_context` in the pdf response f-string, lines 545-551. -/
def pdf_response_suf : String :=
  "\n\n📞 **WhatsApp:** +57 3144809367\n📧 **Email:** monteriamaster@gmail.com\n🔥 **¡REALIZA TU INSCRIPCIÓN YA!**\n👆 [Haz clic aquí para inscribirte por WhatsApp](https://wa.me/573144809367?text=Hola,%20quiero%20inscribirme%20en%20el%20Club%20de%20Natación%20MNM)\n💌 [Enviar correo electrónico](mailto:monteriamaster@gmail.com?subject=Consulta%20Club%20de%20Natación%20MNM)"

/-! ### The fallback responder -/

/-- `LlamaSwimmingBot.get_enrollment_flow` (src/chatboot.py lines 236-291):
a one-entry dictionary lookup with default `"Paso no válido"`. -/
def get_enrollment_flow (step : Nat) : String :=
  if step = 1 then tpl_pasos_inscripcion else "Paso no válido"

/-- The body of `LlamaSwimmingBot.get_fallback_response` after the
`user_lower = user_input.lower()` normalisation (src/chatboot.py lines
296-515): an early-return if/elif chain over the keyword groups, in
source order. -/
def fallback_on_lower (user_lower : List Char) : Option String :=
  if any_keyword enrollment_keywords user_lower then
    some (get_enrollment_flow 1)
  else if any_keyword schedule_keywords user_lower then
    (if any_keyword child_keywords user_lower then some tpl_horarios_ninos
     else if any_keyword adult_keywords user_lower then some tpl_horarios_adultos
     else some tpl_horarios_completos)
  else if any_keyword price_keywords user_lower then some tpl_precios
  else if any_keyword bring_keywords user_lower then some tpl_que_traer
  else if any_keyword teaching_keywords user_lower then some tpl_enfasis
  else if any_keyword age_keywords user_lower then some tpl_edades
  else if any_keyword contact_keywords user_lower then some tpl_contacto
  else if any_keyword reposition_keywords user_lower then some tpl_reposicion
  else if any_keyword policy_keywords user_lower then some tpl_reglamentos
  else if any_keyword generic_enrollment_keywords user_lower then some tpl_proceso_inscripcion
  else none

/-- `LlamaSwimmingBot.get_fallback_response` (src/chatboot.py lines
293-515): lowercase the input, then run the keyword chain; `none`
models the final `return None`. -/
def get_fallback_response (user_input : List Char) : Option String :=
  fallback_on_lower (py_lower user_input)

/-! ### Document classification -/

/-- `identify_doc_type` (src/chatboot.py lines 108-118): substring match
on the lowercased filename, in source order, defaulting to `"general"`. -/
def identify_doc_type (filename : List Char) : String :=
  let filename_lower := py_lower filename
  if py_in "reglamento".data filename_lower then "reglamento"
  else if py_in "inscripcion".data filename_lower then "inscripcion"
  else if py_in "precios".data filename_lower then "precios"
  else "general"

/-- Doc-type assignment as the spec words it (spec §3): test the
substrings in the order reglamento → inscripcion → precios against the
lowercased filename, first match wins, default `"general"`. Stated
separately from `identify_doc_type` so that the two can be compared. -/
def doc_type_spec (filename : List Char) : String :=
  match (["reglamento", "inscripcion", "precios"] : List String).find?
      (fun p => py_in p.data (py_lower filename)) with
  | some p => p
  | none => "general"

/-! ### The intent table, spec-shaped (spec §4.4) -/

/-- One intent group: a keyword set and its responder (the responder of
the schedule group inspects the lowered input again for its child/adult
sub-branch; all other responders are constant). -/
structure IntentGroup where
  keywords : List (List Char)
  respond : List Char → String

/-- The child/adult sub-branch of the schedule group
(src/chatboot.py lines 302-370). -/
def schedule_respond (user_lower : List Char) : String :=
  if any_keyword child_keywords user_lower then tpl_horarios_ninos
  else if any_keyword adult_keywords user_lower then tpl_horarios_adultos
  else tpl_horarios_completos

/-- The ten intent groups in the fixed priority order of spec §4.4:
enrollment → schedule → price → what-to-bring → teaching-approach →
age → contact → reposition-policy → general-policy → generic-enrollment. -/
def intent_groups : List IntentGroup :=
  [⟨enrollment_keywords, fun _ => get_enrollment_flow 1⟩,
   ⟨schedule_keywords, schedule_respond⟩,
   ⟨price_keywords, fun _ => tpl_precios⟩,
   ⟨bring_keywords, fun _ => tpl_que_traer⟩,
   ⟨teaching_keywords, fun _ => tpl_enfasis⟩,
   ⟨age_keywords, fun _ => tpl_edades⟩,
   ⟨contact_keywords, fun _ => tpl_contacto⟩,
   ⟨reposition_keywords, fun _ => tpl_reposicion⟩,
   ⟨policy_keywords, fun _ => tpl_reglamentos⟩,
   ⟨generic_enrollment_keywords, fun _ => tpl_proceso_inscripcion⟩]

/-- Spec-shaped resolver (spec §4.4): the FIRST group whose keyword set
matches the lowered input wins; absent when no group matches. Stated
separately from `fallback_on_lower` so that the two can be compared. -/
def resolve_first_match (gs : List IntentGroup) (user_lower : List Char) : Option String :=
  (gs.find? (fun g => any_keyword g.keywords user_lower)).map (fun g => g.respond user_lower)

/-! ### The response cache (`RedisCache`, src/chatboot.py lines 120-206)

The redis client and the impure helpers around it (hashing, json, the
wall clock that stamps the payload) are modelled as fields: a call that
can raise in Python is a field returning `Except`, and the `try/except`
blocks of the source correspond to the `match`es on that result. -/

/-- An exception raised by an external collaborator (redis client,
json codec, pdf loader, vector store). -/
inductive PyExn where
  | raised (msg : String)

/-- The state and collaborators of one `RedisCache` instance:
`cache_available` is the flag set by `_connect` at construction time
(False when the module is missing or the ping failed), `redis_get` and
`redis_setex` are the client calls, `md5_hex` the hex digest,
`json_dumps` the payload serializer (it also absorbs the
`datetime.now()` timestamp, which is not load-bearing) and
`json_loads_response` the `json.loads(...)['response']` step. -/
structure RedisCache where
  cache_available : Bool
  redis_get : String → Except PyExn (Option String)
  redis_setex : String → Nat → String → Except PyExn Unit
  md5_hex : List Char → String
  json_dumps : List Char → String → String
  json_loads_response : String → Except PyExn String

/-- `RedisCache._generate_key` (lines 152-155): namespace prefixed hash
of the lowercased, stripped input. -/
def RedisCache.generate_key (c : RedisCache) (user_input : List Char) : String :=
  "chatbot_response:" ++ c.md5_hex (py_strip (py_lower user_input))

/-- `RedisCache.get_response` (lines 157-172): `None` when the cache is
unavailable, the stored value is absent or falsy, or the client/decoder
raises (the `except` swallows the error and falls through to
`return None`). -/
def RedisCache.get_response (c : RedisCache) (user_input : List Char) : Option String :=
  if c.cache_available = false then none
  else
    match c.redis_get (c.generate_key user_input) with
    | .error _ => none
    | .ok none => none
    | .ok (some cached_data) =>
      if cached_data = "" then none
      else
        match c.json_loads_response cached_data with
        | .error _ => none
        | .ok r => some r

/-- `RedisCache.set_response` (lines 174-191): `False` when the cache is
unavailable or the `setex` call raises, `True` on success. -/
def RedisCache.set_response (c : RedisCache) (user_input : List Char)
    (response : String) (ttl : Nat) : Bool :=
  if c.cache_available = false then false
  else
    match c.redis_setex (c.generate_key user_input) ttl (c.json_dumps user_input response) with
    | .error _ => false
    | .ok _ => true

/-! ### Document search and the answer composer -/

/-- One document returned by `similarity_search`: its
`metadata.get('doc_type', 'documento')` value and its page content. -/
structure RetrievedDoc where
  doc_type_meta : Option String
  page_content : String

/-- The external `vectorstore.similarity_search` behaviour: given a
query and `k`, either a list of documents or a raised exception. -/
def SearchFun : Type := List Char → Nat → Except PyExn (List RetrievedDoc)

/-- `LlamaSwimmingBot.search_documents` (src/chatboot.py lines 217-234):
empty string when there is no vectorstore, empty string when the search
raises (the `except` swallows the error), otherwise the contexts
concatenated as `"\n[" + doc_type + "]: " + content + "\n"`. -/
def search_documents (vectorstore : Option SearchFun) (query : List Char) (k : Nat) : String :=
  match vectorstore with
  | none => ""
  | some sim =>
    match sim query k with
    | .error _ => ""
    | .ok docs =>
      docs.foldl (fun context doc =>
        context ++ "\n[" ++ doc.doc_type_meta.getD "documento" ++ "]: " ++ doc.page_content ++ "\n") ""

/-- The collaborators of one `LlamaSwimmingBot` relevant to
`generate_response`: its cache and its (possibly absent) vectorstore. -/
structure LlamaSwimmingBot where
  cache : RedisCache
  vectorstore : Option SearchFun

/-- The value of `generate_response` plus its cache-write effect: the
returned response and the `(response, ttl)` arguments of every
`self.cache.set_response` call the executed branch makes. -/
structure GenOutcome where
  response : String
  set_calls : List (String × Nat)

/-- The pdf-context response f-string of `generate_response`
(src/chatboot.py lines 543-551). -/
def pdf_response_of (document_context : String) : String :=
  pdf_response_pre ++ document_context ++ pdf_response_suf

/-- The part of `LlamaSwimmingBot.generate_response` after the cache
lookup (src/chatboot.py lines 528-575): hardcoded fallback first
(cached with ttl 7200), then pdf search when the trimmed context
exceeds 50 characters (ttl 3600), else the generic response
(ttl 1800). Split from `generate_response` only because Python reaches
it both on a `None` and on a falsy cached value. -/
def generate_response_after_cache (bot : LlamaSwimmingBot) (user_input : List Char) : GenOutcome :=
  match get_fallback_response user_input with
  | some fallback => { response := fallback, set_calls := [(fallback, 7200)] }
  | none =>
    let document_context := search_documents bot.vectorstore user_input 2
    if document_context ≠ "" ∧ 50 < (py_strip document_context.data).length then
      { response := pdf_response_of document_context,
        set_calls := [(pdf_response_of document_context, 3600)] }
    else
      { response := generic_response_text, set_calls := [(generic_response_text, 1800)] }

/-- `LlamaSwimmingBot.generate_response` (src/chatboot.py lines 517-575):
return a truthy cached response immediately (no cache write), otherwise
continue with fallback → pdf search → generic response. -/
def generate_response (bot : LlamaSwimmingBot) (user_input : List Char) : GenOutcome :=
  match bot.cache.get_response user_input with
  | some cached_response =>
    if cached_response ≠ "" then { response := cached_response, set_calls := [] }
    else generate_response_after_cache bot user_input
  | none => generate_response_after_cache bot user_input

/-! ### RAG startup (`setup_rag_system`, src/chatboot.py lines 51-106) -/

/-- One ingested pdf page with the metadata `setup_rag_system` attaches
(src/chatboot.py lines 76-80). -/
structure PdfDocument where
  page_content : String
  source : String
  doc_type : String
deriving DecidableEq

/-- The vectorstore `setup_rag_system` returns: either one loaded from
the persisted path or one built from the ingested documents. -/
inductive VectorStoreState where
  | loadedFrom (path : String)
  | builtFrom (docs : List PdfDocument)

/-- The filesystem facts `setup_rag_system` consults:
whether the persisted-index check `os.path.exists("club_vectorstore.faiss")`
succeeds, whether the `pdfs` folder exists, its listing, and per file
whether `PyPDFLoader` succeeds and which page texts it extracts. -/
structure RagFileSystem where
  vectorstore_sidecar : Bool
  pdf_folder : Bool
  listing : List String
  load_ok : String → Bool
  page_texts : String → List String

/-- What one run of `setup_rag_system` produced: the vectorstore, the
files actually ingested, whether `save_local` ran, and the filesystem
afterwards. Modelled from the spec: `save_local` is the external
vector-store library's persistence call, which src/ does not contain;
per spec §4.2/§6 it persists the index at the known path that the
startup existence check consults, so a successful save sets
`vectorstore_sidecar`. -/
structure RagSetupResult where
  vectorstore : Option VectorStoreState
  ingested : List String
  saved : Bool
  fs_after : RagFileSystem

/-- The `.pdf` entries of the documents folder (lines 68-70); empty
when the folder does not exist. -/
def rag_pdf_files (fs : RagFileSystem) : List String :=
  if fs.pdf_folder then fs.listing.filter (fun f => ".pdf".data.isSuffixOf f.data) else []

/-- The files of the folder that `PyPDFLoader` loads without raising
(a per-file failure only warns and continues, line 83-85). -/
def rag_ok_files (fs : RagFileSystem) : List String :=
  (rag_pdf_files fs).filter fs.load_ok

/-- The `all_documents` accumulator of `setup_rag_system` (lines
67-85): every page of every loadable pdf, tagged with its source file
and `identify_doc_type` of the filename. -/
def rag_all_documents (fs : RagFileSystem) : List PdfDocument :=
  (rag_ok_files fs).flatMap (fun f =>
    (fs.page_texts f).map (fun t =>
      { page_content := t, source := f, doc_type := identify_doc_type f.data }))

/-- `setup_rag_system` (src/chatboot.py lines 51-106): load the
persisted index when the sidecar exists (no ingestion); otherwise
ingest the documents and build, persist and return a new index — or
return `None` when nothing was ingested. -/
def setup_rag_system (fs : RagFileSystem) : RagSetupResult :=
  if fs.vectorstore_sidecar then
    { vectorstore := some (.loadedFrom "club_vectorstore"), ingested := [], saved := false,
      fs_after := fs }
  else if rag_all_documents fs ≠ [] then
    { vectorstore := some (.builtFrom (rag_all_documents fs)), ingested := rag_ok_files fs,
      saved := true, fs_after := { fs with vectorstore_sidecar := true } }
  else
    { vectorstore := none, ingested := rag_ok_files fs, saved := false, fs_after := fs }

/-! ## Theorems -/

/-! ### C6: `identify_doc_type` is a pure, total, first-match classifier -/

/-- C6: `identify_doc_type` is a pure total function of the filename
that matches the lowercased filename against `"reglamento"`, then
`"inscripcion"`, then `"precios"`, returns the first match, and
returns `"general"` for every filename matching none — i.e. it agrees
with the spec-shaped first-match table `doc_type_spec` and its value
is always one of the four doc types. -/
theorem identify_doc_type_first_match (f : List Char) :
    identify_doc_type f = doc_type_spec f ∧
    identify_doc_type f ∈ (["reglamento", "inscripcion", "precios", "general"] : List String) := by
  unfold identify_doc_type doc_type_spec
  by_cases h1 : py_in "reglamento".data (py_lower f) = true <;>
  by_cases h2 : py_in "inscripcion".data (py_lower f) = true <;>
  by_cases h3 : py_in "precios".data (py_lower f) = true <;>
  simp [h1, h2, h3, List.find?]

/-! ### C9: the child-schedule query gets the child template -/

/-- C9: for the query `"¿Cuáles son los horarios de niños?"`,
`get_fallback_response` returns the child-schedule template, which
contains the literal child-schedule block (`"Martes y Jueves"` together
with `"4:00 PM a 5:00 PM"`) and not the adult-schedule block (it is not
the adult template, and none of the adult-only morning slots
`"5:00 AM"` appear in it). -/
theorem child_schedule_query_gets_child_template :
    get_fallback_response "¿Cuáles son los horarios de niños?".data = some tpl_horarios_ninos ∧
    py_in "Martes y Jueves".data tpl_horarios_ninos.data = true ∧
    py_in "4:00 PM a 5:00 PM".data tpl_horarios_ninos.data = true ∧
    tpl_horarios_ninos ≠ tpl_horarios_adultos ∧
    py_in "5:00 AM".data tpl_horarios_ninos.data = false :=
  ⟨by decide, by decide, by decide, by decide, by decide⟩

/-! ### C10: the generic-enrollment branch is dead code -/

/-- The keyword set of the last (generic-enrollment) branch is a subset
of the keyword set of the enrollment branch tested first, so any input
matching it already matched the first branch. -/
theorem generic_enrollment_keywords_subset (l : List Char) :
    any_keyword generic_enrollment_keywords l = true →
    any_keyword enrollment_keywords l = true := by
  intro h
  rw [any_keyword, List.any_eq_true] at h ⊢
  obtain ⟨w, hwmem, hw⟩ := h
  refine ⟨w, ?_, hw⟩
  simp only [generic_enrollment_keywords, List.mem_cons, List.not_mem_nil, or_false] at hwmem
  simp only [enrollment_keywords, List.mem_cons]
  tauto

/-- C10: no input ever makes `get_fallback_response` return the
`"PROCESO DE INSCRIPCIÓN"` template of the last enrollment branch: its
keyword set is contained in the first branch's, so the branch is
unreachable dead code. -/
theorem generic_enrollment_branch_never_returned (s : List Char) :
    get_fallback_response s ≠ some tpl_proceso_inscripcion := by
  unfold get_fallback_response fallback_on_lower
  intro h
  by_cases h1 : any_keyword enrollment_keywords (py_lower s) = true
  · rw [if_pos h1] at h
    exact absurd (Option.some.inj h) (by decide)
  · rw [if_neg h1] at h
    by_cases h10 : any_keyword generic_enrollment_keywords (py_lower s) = true
    · exact h1 (generic_enrollment_keywords_subset _ h10)
    · have h10f : any_keyword generic_enrollment_keywords (py_lower s) = false :=
        Bool.eq_false_iff.mpr h10
      simp only [h10f, Bool.false_eq_true, if_false] at h
      repeat' split at h
      all_goals first
        | exact Option.noConfusion h
        | exact absurd (Option.some.inj h) (by decide)

/-! ### C2: the first matching group wins, in the fixed priority order -/

/-- C2: `get_fallback_response` returns exactly the responder of the
FIRST keyword group matching the lowercased input, in the fixed
priority order of `intent_groups` (enrollment → schedule → price →
what-to-bring → teaching-approach → age → contact → reposition-policy
→ general-policy → generic-enrollment); in particular, when keywords
of several groups are present, the first matching group's template is
returned. -/
theorem first_matching_group_wins (s : List Char) :
    get_fallback_response s = resolve_first_match intent_groups (py_lower s) := by
  unfold get_fallback_response fallback_on_lower resolve_first_match intent_groups
  by_cases h1 : any_keyword enrollment_keywords (py_lower s) = true
  · simp [List.find?, h1]
  · by_cases h2 : any_keyword schedule_keywords (py_lower s) = true
    · by_cases hc : any_keyword child_keywords (py_lower s) = true
      · simp [List.find?, h1, h2, hc, schedule_respond]
      · by_cases ha : any_keyword adult_keywords (py_lower s) = true <;>
          simp [List.find?, h1, h2, hc, ha, schedule_respond]
    · by_cases h3 : any_keyword price_keywords (py_lower s) = true
      · simp [List.find?, h1, h2, h3]
      · by_cases h4 : any_keyword bring_keywords (py_lower s) = true
        · simp [List.find?, h1, h2, h3, h4]
        · by_cases h5 : any_keyword teaching_keywords (py_lower s) = true
          · simp [List.find?, h1, h2, h3, h4, h5]
          · by_cases h6 : any_keyword age_keywords (py_lower s) = true
            · simp [List.find?, h1, h2, h3, h4, h5, h6]
            · by_cases h7 : any_keyword contact_keywords (py_lower s) = true
              · simp [List.find?, h1, h2, h3, h4, h5, h6, h7]
              · by_cases h8 : any_keyword reposition_keywords (py_lower s) = true
                · simp [List.find?, h1, h2, h3, h4, h5, h6, h7, h8]
                · by_cases h9 : any_keyword policy_keywords (py_lower s) = true
                  · simp [List.find?, h1, h2, h3, h4, h5, h6, h7, h8, h9]
                  · by_cases h10 : any_keyword generic_enrollment_keywords (py_lower s) = true <;>
                      simp [List.find?, h1, h2, h3, h4, h5, h6, h7, h8, h9, h10]

/-! ### C4: the cache degrades to a clean no-op, it never raises -/

/-- C4: when the backing store is unreachable — at startup
(`cache_available = false`) or at call time (every client call raises)
— `get_response` returns `none` and `set_response` returns `false`;
the embedding is total, so no exception ever reaches the caller. -/
theorem cache_degrades_cleanly (c : RedisCache) (user_input : List Char)
    (response : String) (ttl : Nat) :
    (c.cache_available = false →
      c.get_response user_input = none ∧ c.set_response user_input response ttl = false) ∧
    ((∀ k, ∃ e, c.redis_get k = .error e) → c.get_response user_input = none) ∧
    ((∀ k n p, ∃ e, c.redis_setex k n p = .error e) →
      c.set_response user_input response ttl = false) := by
  refine ⟨fun h => ?_, fun h => ?_, fun h => ?_⟩
  · unfold RedisCache.get_response RedisCache.set_response
    simp [h]
  · unfold RedisCache.get_response
    by_cases hav : c.cache_available = false
    · simp [hav]
    · obtain ⟨e, he⟩ := h (c.generate_key user_input)
      simp [hav, he]
  · unfold RedisCache.set_response
    by_cases hav : c.cache_available = false
    · simp [hav]
    · obtain ⟨e, he⟩ := h (c.generate_key user_input) ttl (c.json_dumps user_input response)
      simp [hav, he]

/-- Witness for C4 at concrete stores: one cache whose startup
connection failed, and one whose client raises on every call. -/
theorem cache_degrades_cleanly_witness :
    RedisCache.get_response
      ⟨false, fun _ => .ok none, fun _ _ _ => .ok (), fun _ => ("d"), fun _ _ => ("p"), fun s => .ok s⟩
      "hola".data = none ∧
    RedisCache.set_response
      ⟨false, fun _ => .ok none, fun _ _ _ => .ok (), fun _ => ("d"), fun _ _ => ("p"), fun s => .ok s⟩
      "hola".data ("resp") 3600 = false ∧
    RedisCache.get_response
      ⟨true, fun _ => .error (.raised ("down")), fun _ _ _ => .error (.raised ("down")),
       fun _ => ("d"), fun _ _ => ("p"), fun s => .ok s⟩
      "hola".data = none ∧
    RedisCache.set_response
      ⟨true, fun _ => .error (.raised ("down")), fun _ _ _ => .error (.raised ("down")),
       fun _ => ("d"), fun _ _ => ("p"), fun s => .ok s⟩
      "hola".data ("resp") 3600 = false := by
  refine ⟨((cache_degrades_cleanly _ "hola".data ("resp") 3600).1 rfl).1,
          ((cache_degrades_cleanly _ "hola".data ("resp") 3600).1 rfl).2,
          (cache_degrades_cleanly _ "hola".data ("resp") 3600).2.1
            (fun k => ⟨.raised ("down"), rfl⟩),
          (cache_degrades_cleanly _ "hola".data ("resp") 3600).2.2
            (fun k n p => ⟨.raised ("down"), rfl⟩)⟩

/-! ### C1: every request produces a non-empty response -/

/-- Every template the fallback responder can return is non-empty. -/
theorem fallback_response_ne_empty (s : List Char) (t : String) :
    get_fallback_response s = some t → t ≠ "" := by
  unfold get_fallback_response fallback_on_lower
  intro h
  repeat' split at h
  all_goals first
    | exact Option.noConfusion h
    | (rw [← Option.some.inj h]; decide)

/-- The pdf-context response is non-empty whatever the context. -/
theorem pdf_response_of_ne_empty (ctx : String) : pdf_response_of ctx ≠ "" := by
  unfold pdf_response_of
  intro h
  have hl := congrArg String.length h
  rw [String.length_append, String.length_append] at hl
  have hp : pdf_response_pre.length = 54 := by decide
  have hz : ("" : String).length = 0 := by decide
  omega

/-- Every branch after the cache lookup produces a non-empty response. -/
theorem generate_after_cache_nonempty (bot : LlamaSwimmingBot) (user_input : List Char) :
    (generate_response_after_cache bot user_input).response ≠ "" := by
  unfold generate_response_after_cache
  cases hf : get_fallback_response user_input with
  | some fb => simpa using fallback_response_ne_empty user_input fb hf
  | none =>
    dsimp only
    split
    · exact pdf_response_of_ne_empty _
    · decide

/-- C1: for every user input and every environment — any cache
behaviour, any or no vectorstore — `generate_response` returns a
non-empty response (the embedding is total, so no exception escapes:
retrieval and cache failures are `Except.error` values swallowed by
`search_documents` and `RedisCache`); and under total infrastructure
failure (cache unavailable, vectorstore absent) an input matching no
keyword group reaches the terminal generic-fallback branch. -/
theorem every_request_gets_nonempty_response (bot : LlamaSwimmingBot) (user_input : List Char) :
    (generate_response bot user_input).response ≠ "" ∧
    (bot.cache.cache_available = false → bot.vectorstore = none →
      get_fallback_response user_input = none →
      (generate_response bot user_input).response = generic_response_text) := by
  constructor
  · unfold generate_response
    cases hc : bot.cache.get_response user_input with
    | some c =>
      by_cases hce : c ≠ ""
      · simp only [if_pos hce]
        exact hce
      · simpa [hce] using generate_after_cache_nonempty bot user_input
    | none => exact generate_after_cache_nonempty bot user_input
  · intro hav hvs hfb
    have hget : bot.cache.get_response user_input = none := by
      unfold RedisCache.get_response
      simp [hav]
    unfold generate_response
    rw [hget]
    unfold generate_response_after_cache
    rw [hfb]
    dsimp only
    rw [hvs]
    unfold search_documents
    simp

/-- Witness for C1: a bot whose cache connection failed and whose
vectorstore is absent still answers the unmatched query `"zzz"` with
the generic response. -/
theorem every_request_gets_nonempty_response_witness :
    (generate_response
      ⟨⟨false, fun _ => .ok none, fun _ _ _ => .ok (), fun _ => ("d"), fun _ _ => ("p"),
        fun s => .ok s⟩, none⟩
      "zzz".data).response = generic_response_text :=
  (every_request_gets_nonempty_response _ _).2 rfl rfl (by decide)

/-! ### C5: which branch writes which TTL to the cache -/

/-- C5: the cache-hit branch returns the cached response and performs
no cache write; on a miss (no cached value, or a falsy one), the
intent-match branch writes its response with ttl 7200, the retrieval
branch (non-empty context whose trimmed length exceeds 50) writes with
ttl 3600, and the generic-fallback branch writes with ttl 1800. -/
theorem branch_cache_write_ttls (bot : LlamaSwimmingBot) (user_input : List Char) :
    (∀ c, bot.cache.get_response user_input = some c → c ≠ "" →
      generate_response bot user_input = ⟨c, []⟩) ∧
    (bot.cache.get_response user_input = none ∨ bot.cache.get_response user_input = some "" →
      ∀ t, get_fallback_response user_input = some t →
        (generate_response bot user_input).set_calls = [(t, 7200)]) ∧
    (bot.cache.get_response user_input = none ∨ bot.cache.get_response user_input = some "" →
      get_fallback_response user_input = none →
      (search_documents bot.vectorstore user_input 2 ≠ "" ∧
        50 < (py_strip (search_documents bot.vectorstore user_input 2).data).length) →
      (generate_response bot user_input).set_calls =
        [(pdf_response_of (search_documents bot.vectorstore user_input 2), 3600)]) ∧
    (bot.cache.get_response user_input = none ∨ bot.cache.get_response user_input = some "" →
      get_fallback_response user_input = none →
      ¬(search_documents bot.vectorstore user_input 2 ≠ "" ∧
        50 < (py_strip (search_documents bot.vectorstore user_input 2).data).length) →
      (generate_response bot user_input).set_calls = [(generic_response_text, 1800)]) := by
  have hmiss : bot.cache.get_response user_input = none ∨
      bot.cache.get_response user_input = some "" →
      generate_response bot user_input = generate_response_after_cache bot user_input := by
    rintro (h | h) <;> simp [generate_response, h]
  refine ⟨fun c hc hce => ?_, fun hm t ht => ?_, fun hm hfb hctx => ?_, fun hm hfb hctx => ?_⟩
  · unfold generate_response
    rw [hc]
    simp [hce]
  · rw [hmiss hm]
    unfold generate_response_after_cache
    rw [ht]
  · rw [hmiss hm]
    unfold generate_response_after_cache
    rw [hfb]
    dsimp only
    rw [if_pos hctx]
  · rw [hmiss hm]
    unfold generate_response_after_cache
    rw [hfb]
    dsimp only
    rw [if_neg hctx]

/-- Witness for C5: a preloaded cache makes the hit branch return the
cached value with no write; with an unavailable cache, the enrollment
query writes its template with ttl 7200, a stocked vectorstore makes
the retrieval branch write with ttl 3600, and an absent vectorstore
makes the generic branch write with ttl 1800. -/
theorem branch_cache_write_ttls_witness :
    generate_response
      ⟨⟨true, fun _ => .ok (some ("data")), fun _ _ _ => .ok (), fun _ => ("d"),
        fun _ _ => ("p"), fun _ => .ok ("cached")⟩, none⟩ "hola".data =
      ⟨"cached", []⟩ ∧
    (generate_response
      ⟨⟨false, fun _ => .ok none, fun _ _ _ => .ok (), fun _ => ("d"), fun _ _ => ("p"),
        fun s => .ok s⟩, none⟩ "inscripcion".data).set_calls = [(tpl_pasos_inscripcion, 7200)] ∧
    (generate_response
      ⟨⟨false, fun _ => .ok none, fun _ _ _ => .ok (), fun _ => ("d"), fun _ _ => ("p"),
        fun s => .ok s⟩,
       some (fun _ _ => .ok
        [⟨some ("precios"), ("La mensualidad del club es de 120000 pesos cada mes del ciclo")⟩])⟩
      "zzz".data).set_calls =
      [(pdf_response_of ("\n[precios]: La mensualidad del club es de 120000 pesos cada mes del ciclo\n"), 3600)] ∧
    (generate_response
      ⟨⟨false, fun _ => .ok none, fun _ _ _ => .ok (), fun _ => ("d"), fun _ _ => ("p"),
        fun s => .ok s⟩, none⟩ "zzz".data).set_calls = [(generic_response_text, 1800)] := by
  refine ⟨(branch_cache_write_ttls _ _).1 ("cached") rfl (by decide), ?_, ?_, ?_⟩
  · exact (branch_cache_write_ttls
      ⟨⟨false, fun _ => .ok none, fun _ _ _ => .ok (), fun _ => ("d"), fun _ _ => ("p"),
        fun s => .ok s⟩, none⟩ "inscripcion".data).2.1 (Or.inl rfl) tpl_pasos_inscripcion (by
      unfold get_fallback_response fallback_on_lower
      rw [if_pos (by decide : any_keyword enrollment_keywords (py_lower "inscripcion".data) = true)]
      rfl)
  · exact (branch_cache_write_ttls
      ⟨⟨false, fun _ => .ok none, fun _ _ _ => .ok (), fun _ => ("d"), fun _ _ => ("p"),
        fun s => .ok s⟩,
       some (fun _ _ => .ok
        [⟨some ("precios"), ("La mensualidad del club es de 120000 pesos cada mes del ciclo")⟩])⟩
      "zzz".data).2.2.1 (Or.inl rfl) (by decide) (by decide)
  · exact (branch_cache_write_ttls
      ⟨⟨false, fun _ => .ok none, fun _ _ _ => .ok (), fun _ => ("d"), fun _ _ => ("p"),
        fun s => .ok s⟩, none⟩ "zzz".data).2.2.2 (Or.inl rfl) (by decide) (by decide)

/-! ### C3: a persisted index is loaded, not rebuilt -/

/-- C3: when the persisted-index check succeeds at startup,
`setup_rag_system` returns the loaded index and ingests nothing;
consequently, after a first run that built and persisted the index
(`saved = true`), a second startup on the resulting filesystem loads
the persisted index and ingests nothing. -/
theorem persisted_index_loaded_not_rebuilt (fs : RagFileSystem) :
    (fs.vectorstore_sidecar = true →
      setup_rag_system fs =
        { vectorstore := some (.loadedFrom "club_vectorstore"), ingested := [], saved := false,
          fs_after := fs }) ∧
    (fs.vectorstore_sidecar = false → (setup_rag_system fs).saved = true →
      (setup_rag_system (setup_rag_system fs).fs_after).vectorstore =
        some (.loadedFrom "club_vectorstore") ∧
      (setup_rag_system (setup_rag_system fs).fs_after).ingested = []) := by
  have hload : ∀ g : RagFileSystem, g.vectorstore_sidecar = true →
      setup_rag_system g =
        { vectorstore := some (.loadedFrom "club_vectorstore"), ingested := [], saved := false,
          fs_after := g } := by
    intro g hg
    unfold setup_rag_system
    rw [if_pos hg]
  refine ⟨hload fs, fun h hsaved => ?_⟩
  have hside : (setup_rag_system fs).fs_after.vectorstore_sidecar = true := by
    unfold setup_rag_system at hsaved ⊢
    rw [if_neg (by simp [h])] at hsaved ⊢
    by_cases hdocs : rag_all_documents fs ≠ []
    · rw [if_pos hdocs]
    · rw [if_neg hdocs] at hsaved
      simp at hsaved
  rw [hload _ hside]
  exact ⟨rfl, rfl⟩

/-- Witness for C3: a filesystem whose sidecar exists is served the
loaded index with no ingestion; a first run over one loadable pdf sets
the sidecar, and the second run loads instead of rebuilding. -/
theorem persisted_index_loaded_not_rebuilt_witness :
    setup_rag_system ⟨true, false, [], fun _ => false, fun _ => []⟩ =
      { vectorstore := some (.loadedFrom "club_vectorstore"), ingested := [], saved := false,
        fs_after := ⟨true, false, [], fun _ => false, fun _ => []⟩ } ∧
    (setup_rag_system
      (setup_rag_system
        ⟨false, true, ["precios.pdf"], fun _ => true, fun _ => ["contenido"]⟩).fs_after).vectorstore =
      some (.loadedFrom "club_vectorstore") ∧
    (setup_rag_system
      (setup_rag_system
        ⟨false, true, ["precios.pdf"], fun _ => true, fun _ => ["contenido"]⟩).fs_after).ingested = [] := by
  refine ⟨(persisted_index_loaded_not_rebuilt _).1 rfl, ?_, ?_⟩
  · exact ((persisted_index_loaded_not_rebuilt
      ⟨false, true, ["precios.pdf"], fun _ => true, fun _ => ["contenido"]⟩).2 rfl rfl).1
  · exact ((persisted_index_loaded_not_rebuilt
      ⟨false, true, ["precios.pdf"], fun _ => true, fun _ => ["contenido"]⟩).2 rfl rfl).2

/-! ### C8: empty corpus, no persisted index — generic fallback -/

/-- C8: with no persisted index and an empty documents folder,
`setup_rag_system` returns no vectorstore; without a vectorstore every
`search_documents` call returns the empty string; and on a cache miss
the composer answers any input matching no keyword group with the
generic-fallback template. -/
theorem empty_corpus_generic_fallback :
    (∀ fs : RagFileSystem, fs.vectorstore_sidecar = false → fs.listing = [] →
      (setup_rag_system fs).vectorstore = none) ∧
    (∀ (q : List Char) (k : Nat), search_documents none q k = "") ∧
    (∀ (cache : RedisCache) (input : List Char),
      cache.get_response input = none → get_fallback_response input = none →
      (generate_response ⟨cache, none⟩ input).response = generic_response_text) := by
  refine ⟨fun fs h hempty => ?_, fun q k => rfl, fun cache input hc hfb => ?_⟩
  · unfold setup_rag_system
    have hdocs : rag_all_documents fs = [] := by
      unfold rag_all_documents rag_ok_files rag_pdf_files
      rw [hempty]
      simp
    rw [if_neg (by simp [h]), if_neg (by simp [hdocs])]
  · unfold generate_response
    rw [hc]
    unfold generate_response_after_cache
    rw [hfb]
    simp [search_documents]

/-- Witness for C8: a concrete empty filesystem yields no vectorstore,
and a bot with a failed cache connection and no vectorstore answers
`"zzz"` with the generic response. -/
theorem empty_corpus_generic_fallback_witness :
    (setup_rag_system ⟨false, true, [], fun _ => true, fun _ => []⟩).vectorstore = none ∧
    (generate_response
      ⟨⟨false, fun _ => .ok none, fun _ _ _ => .ok (), fun _ => ("d"), fun _ _ => ("p"),
        fun s => .ok s⟩, none⟩ "zzz".data).response = generic_response_text :=
  ⟨empty_corpus_generic_fallback.1 _ rfl rfl,
   empty_corpus_generic_fallback.2.2 _ "zzz".data rfl (by decide)⟩

/-! ### C7: matching is on the lowercased input; case and edge
whitespace are irrelevant -/

/-- The executable substring test agrees with `List.IsInfix`. -/
theorem py_in_iff (w : List Char) : ∀ l, py_in w l = true ↔ w <:+: l := by
  intro l
  induction l with
  | nil => simp [py_in, List.isEmpty_iff, List.infix_nil]
  | cons c rest ih =>
    simp [py_in, ih, List.isPrefixOf_iff_prefix, List.infix_cons_iff]

/-- Helper for C1-style constructions: an infix of `u` is an infix of
`u ++ q`. -/
theorem isInfix_append_any {w u : List Char} (q : List Char) (h : w <:+: u) : w <:+: u ++ q := by
  obtain ⟨s, t, hst⟩ := h
  refine ⟨s, t ++ q, ?_⟩
  simp only [← List.append_assoc]
  rw [hst]

/-- Peeling one trailing whitespace character: a word whose last
character is not whitespace that occurs in `u ++ [c]` for whitespace
`c` already occurs in `u`. -/
theorem infix_peel_ws_last {w u : List Char} {c : Char} (hw : w ≠ [])
    (hlast : ∀ x, w.getLast? = some x → py_ws x = false) (hc : py_ws c = true)
    (h : w <:+: u ++ [c]) : w <:+: u := by
  obtain ⟨s, t, hst⟩ := h
  rcases List.eq_nil_or_concat t with rfl | ⟨t', c', rfl⟩
  · simp only [List.append_nil] at hst
    have h1 : (s ++ w).getLast? = some c := by rw [hst]; exact List.getLast?_concat u
    rw [List.getLast?_append_of_ne_nil s hw] at h1
    rw [hlast c h1] at hc
    exact Bool.noConfusion hc
  · rw [List.concat_eq_append] at hst
    simp only [← List.append_assoc] at hst
    obtain ⟨hsw, _⟩ := List.append_inj' hst rfl
    exact ⟨s, t', hsw⟩

/-- Trailing whitespace padding does not affect occurrence of a word
whose last character is not whitespace. -/
theorem infix_append_ws_right {w u : List Char} (hw : w ≠ [])
    (hlast : ∀ x, w.getLast? = some x → py_ws x = false) :
    ∀ q, (∀ c ∈ q, py_ws c = true) → (w <:+: u ++ q ↔ w <:+: u) := by
  intro q
  induction q using List.reverseRecOn with
  | nil => intro _; simp
  | append_singleton q' c ih =>
    intro hq
    constructor
    · intro h
      rw [← List.append_assoc] at h
      have h1 : w <:+: u ++ q' :=
        infix_peel_ws_last hw hlast (hq c (by simp)) h
      exact (ih (fun x hx => hq x (by simp [hx]))).mp h1
    · intro h
      exact isInfix_append_any _ h

/-- Leading whitespace padding does not affect occurrence of a word
whose first character is not whitespace. -/
theorem infix_ws_append_left {w u p : List Char} (hw : w ≠ [])
    (hhead : ∀ x, w.head? = some x → py_ws x = false)
    (hp : ∀ c ∈ p, py_ws c = true) : w <:+: p ++ u ↔ w <:+: u := by
  constructor
  · intro h
    have h1 : w.reverse <:+: u.reverse ++ p.reverse := by
      have h2 := h.reverse
      rwa [List.reverse_append] at h2
    have h3 : w.reverse <:+: u.reverse := by
      refine (infix_append_ws_right ?_ ?_ p.reverse ?_).mp h1
      · simpa using hw
      · intro x hx
        rw [List.getLast?_reverse] at hx
        exact hhead x hx
      · intro c hc
        rw [List.mem_reverse] at hc
        exact hp c hc
    have h4 := h3.reverse
    simpa using h4
  · intro h
    obtain ⟨s, t, hst⟩ := h
    refine ⟨p ++ s, t, ?_⟩
    have hcong : p ++ (s ++ w ++ t) = p ++ u := by rw [hst]
    simpa [List.append_assoc] using hcong

/-- A keyword group test ignores whitespace padding on either side of
the text, provided every keyword is non-empty and starts and ends with
a non-whitespace character (true of every keyword table of the bot). -/
theorem any_keyword_pad (words : List (List Char))
    (hwords : ∀ w ∈ words, w ≠ [] ∧ py_ws (w.head?.getD 'x') = false ∧
      py_ws (w.getLast?.getD 'x') = false)
    (p q l : List Char) (hp : ∀ c ∈ p, py_ws c = true) (hq : ∀ c ∈ q, py_ws c = true) :
    any_keyword words (p ++ l ++ q) = any_keyword words l := by
  unfold any_keyword
  rw [Bool.eq_iff_iff]
  simp only [List.any_eq_true]
  constructor
  · rintro ⟨w, hwm, hwi⟩
    obtain ⟨hne, hh, hl⟩ := hwords w hwm
    refine ⟨w, hwm, ?_⟩
    rw [py_in_iff] at hwi ⊢
    have hlast : ∀ x, w.getLast? = some x → py_ws x = false := by
      intro x hx; rw [hx] at hl; simpa using hl
    have hhead : ∀ x, w.head? = some x → py_ws x = false := by
      intro x hx; rw [hx] at hh; simpa using hh
    have step1 : w <:+: p ++ l := (infix_append_ws_right hne hlast q hq).mp hwi
    exact (infix_ws_append_left hne hhead hp).mp step1
  · rintro ⟨w, hwm, hwi⟩
    obtain ⟨hne, hh, hl⟩ := hwords w hwm
    refine ⟨w, hwm, ?_⟩
    rw [py_in_iff] at hwi ⊢
    have hlast : ∀ x, w.getLast? = some x → py_ws x = false := by
      intro x hx; rw [hx] at hl; simpa using hl
    have hhead : ∀ x, w.head? = some x → py_ws x = false := by
      intro x hx; rw [hx] at hh; simpa using hh
    have step1 : w <:+: p ++ l := (infix_ws_append_left hne hhead hp).mpr hwi
    exact (infix_append_ws_right hne hlast q hq).mpr step1

/-- Python `strip` decomposition: every string is whitespace padding
around its stripped core. -/
theorem py_strip_decomposition (l : List Char) :
    ∃ p q, (∀ c ∈ p, py_ws c = true) ∧ (∀ c ∈ q, py_ws c = true) ∧
      p ++ py_strip l ++ q = l := by
  refine ⟨l.takeWhile py_ws, ((l.dropWhile py_ws).reverse.takeWhile py_ws).reverse,
    fun c hc => List.mem_takeWhile_imp hc, ?_, ?_⟩
  · intro c hc
    rw [List.mem_reverse] at hc
    exact List.mem_takeWhile_imp hc
  · unfold py_strip
    rw [List.append_assoc]
    have hmid : ((l.dropWhile py_ws).reverse.dropWhile py_ws).reverse ++
        ((l.dropWhile py_ws).reverse.takeWhile py_ws).reverse = l.dropWhile py_ws := by
      rw [← List.reverse_append, List.takeWhile_append_dropWhile, List.reverse_reverse]
    rw [hmid, List.takeWhile_append_dropWhile]

/-- The keyword chain ignores whitespace padding around the input:
every keyword of every group is non-empty with non-whitespace first
and last characters, so no group's match status changes. -/
theorem fallback_on_lower_pad (p q l : List Char)
    (hp : ∀ c ∈ p, py_ws c = true) (hq : ∀ c ∈ q, py_ws c = true) :
    fallback_on_lower (p ++ l ++ q) = fallback_on_lower l := by
  unfold fallback_on_lower
  rw [any_keyword_pad enrollment_keywords (by decide) p q l hp hq,
    any_keyword_pad schedule_keywords (by decide) p q l hp hq,
    any_keyword_pad child_keywords (by decide) p q l hp hq,
    any_keyword_pad adult_keywords (by decide) p q l hp hq,
    any_keyword_pad price_keywords (by decide) p q l hp hq,
    any_keyword_pad bring_keywords (by decide) p q l hp hq,
    any_keyword_pad teaching_keywords (by decide) p q l hp hq,
    any_keyword_pad age_keywords (by decide) p q l hp hq,
    any_keyword_pad contact_keywords (by decide) p q l hp hq,
    any_keyword_pad reposition_keywords (by decide) p q l hp hq,
    any_keyword_pad policy_keywords (by decide) p q l hp hq,
    any_keyword_pad generic_enrollment_keywords (by decide) p q l hp hq]

/-- C7: `get_fallback_response` depends only on the lowercased input
stripped of leading/trailing whitespace — two inputs differing only in
letter case or in edge whitespace (in particular, any such variant of
an input matching some keyword group) get the identical template. -/
theorem fallback_case_whitespace_insensitive (s₁ s₂ : List Char)
    (h : py_strip (py_lower s₁) = py_strip (py_lower s₂)) :
    get_fallback_response s₁ = get_fallback_response s₂ := by
  unfold get_fallback_response
  obtain ⟨p₁, q₁, hp₁, hq₁, hd₁⟩ := py_strip_decomposition (py_lower s₁)
  obtain ⟨p₂, q₂, hp₂, hq₂, hd₂⟩ := py_strip_decomposition (py_lower s₂)
  calc fallback_on_lower (py_lower s₁)
      = fallback_on_lower (p₁ ++ py_strip (py_lower s₁) ++ q₁) := by rw [hd₁]
    _ = fallback_on_lower (py_strip (py_lower s₁)) := fallback_on_lower_pad p₁ q₁ _ hp₁ hq₁
    _ = fallback_on_lower (py_strip (py_lower s₂)) := by rw [h]
    _ = fallback_on_lower (p₂ ++ py_strip (py_lower s₂) ++ q₂) :=
        (fallback_on_lower_pad p₂ q₂ _ hp₂ hq₂).symm
    _ = fallback_on_lower (py_lower s₂) := by rw [hd₂]

/-- Witness for C7: an uppercase query and its lowercase variant
padded with edge whitespace get the same (schedule) template. -/
theorem fallback_case_whitespace_insensitive_witness :
    get_fallback_response "HORARIO".data = get_fallback_response "  horario  ".data :=
  fallback_case_whitespace_insensitive "HORARIO".data "  horario  ".data (by decide)

/-- Witness for C10 at a concrete input that does match the
generic-enrollment keyword set: even `"inscripcion"` is not answered
with the last branch's template. -/
theorem generic_enrollment_branch_never_returned_witness :
    get_fallback_response "inscripcion".data ≠ some tpl_proceso_inscripcion :=
  generic_enrollment_branch_never_returned "inscripcion".data
